import Mathlib

set_option linter.unusedVariables false

namespace SistemaTerritorios

/-! Shallow embedding of the data-access core of the sistema-territorios
repository: the entity models under `src/models/`, the behaviour of the
SQLite gateway they rely on (`src/database/db_manager.py`), the schema
validator (`src/database/schema_validator.py`), the authentication service
(`src/services/auth_service.py`) and the backup rotation logic
(`src/database/backup.py`).

Conventions: SQLite tables are lists of row records in insertion order;
`lastrowid` is modelled by per-table counters; nullable columns and
attributes are `Option`; `db_manager.execute` never raises (driver errors
surface as `None` cursors), so the pure embedding models the error-free
executions, except where a claim is specifically about failures (see
`FixEnv` further down, which injects script-application outcomes).
PBKDF2-HMAC-SHA256 is kept abstract as a function argument
`pbkdf2 : String → List Nat → List Nat` (password and salt bytes to hash
bytes): no statement proved here depends on its internals. -/

/-- Python `value.strip() == ""`: every character is whitespace. -/
def pyBlank (s : String) : Bool :=
  s.data.all Char.isWhitespace

/-- Python `str.split(sep)` on a single-character separator, as a
structural recursion over the character list. -/
def splitCharAux (sep : Char) : List Char → List Char → List String
  | [], acc => [String.mk acc.reverse]
  | c :: cs, acc =>
      if c = sep then String.mk acc.reverse :: splitCharAux sep cs []
      else splitCharAux sep cs (c :: acc)

/-- Python `s.split(sep)` for a one-character separator. -/
def splitChar (s : String) (sep : Char) : List String :=
  splitCharAux sep s.data []

/-- A value handed to the required-field check: the Python attribute values
occurring in the models are numeric ids, integers, strings or nullable
strings. -/
inductive FieldVal where
  | natField : Option Nat → FieldVal
  | intField : Option Int → FieldVal
  | strField : String → FieldVal
  | optStrField : Option String → FieldVal
deriving DecidableEq

/-- Modelled from the spec: `utils.validation.validate_required_fields` is
imported by every model module but is absent from the source tree (only its
callers are present). Per the spec, "each entity type defines required-field
checks" whose "failures are collected as a list of human-readable messages";
like the sibling helper `validate_required` in `utils/validation.py`, a
field fails the check when it is null or a blank (empty after strip)
string. -/
def fieldMissing : FieldVal → Bool
  | .natField v => v.isNone
  | .intField v => v.isNone
  | .strField s => pyBlank s
  | .optStrField none => true
  | .optStrField (some s) => pyBlank s

/-- Modelled from the spec: collects the message of every missing required
field, in order. -/
def validate_required_fields (fields : List (FieldVal × String)) : List String :=
  fields.foldr (fun f acc => if fieldMissing f.1 then f.2 :: acc else acc) []

/-- Python truthiness of a nullable integer (`None` and `0` are falsy). -/
def intTruthy : Option Int → Bool
  | none => false
  | some n => n != 0

/-- Python truthiness of a nullable string (`None` and the empty string are
falsy). -/
def optStrTruthy : Option String → Bool
  | none => false
  | some s => s ≠ ""

/-- Python `f"i:02d"`-style zero padding for a non-negative index, as used
by `Imovel._criar_unidades`. -/
def pad2 (i : Nat) : String :=
  if i < 10 then "0" ++ toString i else toString i

/-- A row of the `imoveis` table (columns as in the schema manifest of
`schema_validator.py`; `data_criacao`-style defaulted columns do not occur
in this table). -/
structure ImovelRow where
  id : Nat
  rua_id : Option Nat
  numero : String
  tipo : String
  nome : Option String
  total_unidades : Option Int
  tipo_portaria : Option String
  tipo_acesso : Option String
  observacoes : Option String
deriving DecidableEq

/-- A row of the `unidades` table. -/
structure UnidadeRow where
  id : Nat
  imovel_id : Option Nat
  numero : String
  observacoes : Option String
deriving DecidableEq

/-- A row of the `usuarios` table. `ativo` is stored as an integer
(`int(self.ativo)`); `data_criacao` has a schema-side default which no
claim observes, the INSERT in `Usuario.save` does not supply it. -/
structure UsuarioRow where
  id : Nat
  nome : String
  email : String
  senha_hash : Option String
  nivel_permissao : Option Int
  ativo : Int
  data_criacao : Option String
deriving DecidableEq

/-- A row of the `atendimentos` table (the `data_registro` column is
schema-defaulted and not supplied by `Atendimento.save`). -/
structure AtendimentoRow where
  id : Nat
  imovel_id : Option Nat
  unidade_id : Option Nat
  data : String
  resultado : Option String
  observacoes : Option String
deriving DecidableEq

/-- A row of the `designacoes` table. -/
structure DesignacaoRow where
  id : Nat
  territorio_id : Option Nat
  saida_campo_id : Option Nat
  data_designacao : String
  data_devolucao : Option String
  responsavel : Option String
  status : String
deriving DecidableEq

/-- A row of the `sessoes` table, as inserted by `AuthService.criar_sessao`. -/
structure SessaoRow where
  usuario_id : Nat
  token : String
  data_expiracao : String
deriving DecidableEq

/-- A row of the `log_atividades` table, as inserted by
`AuthService._registrar_login`. -/
structure LogRow where
  usuario_id : Nat
  tipo_acao : String
  descricao : String
deriving DecidableEq

/-- The SQLite database state touched by the modelled operations: one list
per table (rows in insertion order) plus the `lastrowid` counters. -/
structure DB where
  imoveis : List ImovelRow := []
  unidades : List UnidadeRow := []
  usuarios : List UsuarioRow := []
  atendimentos : List AtendimentoRow := []
  designacoes : List DesignacaoRow := []
  sessoes : List SessaoRow := []
  log_atividades : List LogRow := []
  nextImovelId : Nat := 1
  nextUnidadeId : Nat := 1
  nextUsuarioId : Nat := 1
  nextAtendimentoId : Nat := 1
  nextDesignacaoId : Nat := 1
deriving DecidableEq

/-- The `Imovel` model object (`models/imovel/imovel.py`): `id` is unset
for not-yet-persisted objects. -/
structure Imovel where
  id : Option Nat
  rua_id : Option Nat
  numero : String
  tipo : String
  nome : Option String := none
  total_unidades : Option Int := none
  tipo_portaria : Option String := none
  tipo_acesso : Option String := none
  observacoes : Option String := none
deriving DecidableEq

/-- The `Unidade` model object (`models/imovel/unidade.py`). -/
structure Unidade where
  id : Option Nat
  imovel_id : Option Nat
  numero : String
  observacoes : Option String := none
deriving DecidableEq

/-- `Imovel.validate`: required fields, then the kind enumeration, then the
unit-count rule for buildings and villages. Message texts follow the
source (inner quotes of the Python f-strings dropped). -/
def Imovel.validate (im : Imovel) : List String :=
  validate_required_fields
    [(.natField im.rua_id, "Rua é obrigatória"),
     (.strField im.numero, "Número é obrigatório"),
     (.strField im.tipo, "Tipo é obrigatório")]
  ++ (if im.tipo ≠ "" ∧ im.tipo ∉ ["residencial", "comercial", "predio", "vila"] then
        ["Tipo deve ser um dos seguintes: residencial, comercial, predio, vila"]
      else [])
  ++ (if (im.tipo = "predio" ∨ im.tipo = "vila") ∧ intTruthy im.total_unidades = false then
        ["Total de unidades é obrigatório para prédios e vilas"]
      else [])

/-- `Unidade.validate`. -/
def Unidade.validate (u : Unidade) : List String :=
  validate_required_fields
    [(.natField u.imovel_id, "Imóvel é obrigatório"),
     (.strField u.numero, "Número da unidade é obrigatório")]

/-- `Unidade.save`: validates, then INSERTs (capturing `lastrowid`) or
UPDATEs by id. Returns the Python return value, the mutated object and the
database state. -/
def Unidade.save (u : Unidade) (db : DB) : Bool × Unidade × DB :=
  if u.validate ≠ [] then (false, u, db)
  else match u.id with
    | none =>
        let row : UnidadeRow := ⟨db.nextUnidadeId, u.imovel_id, u.numero, u.observacoes⟩
        (true, { u with id := some db.nextUnidadeId },
         { db with unidades := db.unidades ++ [row],
                   nextUnidadeId := db.nextUnidadeId + 1 })
    | some uid =>
        (true, u,
         { db with unidades := db.unidades.map fun r =>
             if r.id = uid then { r with imovel_id := u.imovel_id, numero := u.numero,
                                         observacoes := u.observacoes }
             else r })

/-- `Imovel._criar_unidades`: one `Unidade.save` per unit, numbered from 1,
labelled "Apto NN" for buildings and "Casa NN" for villages (the source
duplicates the loop per kind; only the label differs). Return values of the
inner saves are ignored by the source. -/
def Imovel.criarUnidades (im : Imovel) (db : DB) : DB :=
  let n := (im.total_unidades.getD 0).toNat
  let rotulo := if im.tipo = "predio" then "Apto " else "Casa "
  (List.range n).foldl
    (fun d k =>
      (Unidade.save ⟨none, im.id, rotulo ++ pad2 (k + 1), none⟩ d).2.2)
    db

/-- `Imovel.save`: validates, INSERTs or UPDATEs; after a successful INSERT
of a building or village with a positive unit count it synchronously creates
the units. -/
def Imovel.save (im : Imovel) (db : DB) : Bool × Imovel × DB :=
  if im.validate ≠ [] then (false, im, db)
  else match im.id with
    | none =>
        let newId := db.nextImovelId
        let row : ImovelRow := ⟨newId, im.rua_id, im.numero, im.tipo, im.nome,
                                im.total_unidades, im.tipo_portaria, im.tipo_acesso,
                                im.observacoes⟩
        let db1 : DB := { db with imoveis := db.imoveis ++ [row],
                                  nextImovelId := newId + 1 }
        let im1 := { im with id := some newId }
        let db2 := if (im1.tipo = "predio" ∨ im1.tipo = "vila")
                       ∧ intTruthy im1.total_unidades = true
                       ∧ im1.total_unidades.getD 0 > 0 then
                     im1.criarUnidades db1
                   else db1
        (true, im1, db2)
    | some iid =>
        (true, im,
         { db with imoveis := db.imoveis.map fun r =>
             if r.id = iid then { r with rua_id := im.rua_id, numero := im.numero,
                                         tipo := im.tipo, nome := im.nome,
                                         total_unidades := im.total_unidades,
                                         tipo_portaria := im.tipo_portaria,
                                         tipo_acesso := im.tipo_acesso,
                                         observacoes := im.observacoes }
             else r })

/-- Lexicographic comparison of character lists (codepoint order). -/
def charListLe : List Char → List Char → Bool
  | [], _ => true
  | _ :: _, [] => false
  | a :: as, b :: bs => if a < b then true else if b < a then false else charListLe as bs

/-- Lexicographic string comparison, modelling SQLite BINARY collation
(identical to byte order on the ASCII labels in scope). -/
def strLe (a b : String) : Bool :=
  charListLe a.data b.data

/-- Ascending insertion by the `numero` column, modelling SQLite
`ORDER BY numero`. -/
def insertByNumero (u : UnidadeRow) : List UnidadeRow → List UnidadeRow
  | [] => [u]
  | v :: vs => if strLe u.numero v.numero then u :: v :: vs else v :: insertByNumero u vs

/-- Sort of the `unidades` result set by `numero`. -/
def sortByNumero : List UnidadeRow → List UnidadeRow
  | [] => []
  | u :: us => insertByNumero u (sortByNumero us)

/-- `Unidade.get_by_imovel`: all units of one property, ordered by label. -/
def Unidade.getByImovel (db : DB) (imovelId : Nat) : List UnidadeRow :=
  sortByNumero (db.unidades.filter fun u => u.imovel_id = some imovelId)

/-- The `Usuario` model object (`models/usuario/usuario.py`). -/
structure Usuario where
  id : Option Nat
  nome : String
  email : String
  senha_hash : Option String := none
  nivel_permissao : Option Int := some 1
  ativo : Bool := true
  data_criacao : Option String := none
deriving DecidableEq

/-- `Usuario.validate`: required fields, simplified email shape, permission
levels 1..3, and a password requirement for new users (Python truthiness:
a null or empty `senha_hash` fails). -/
def Usuario.validate (u : Usuario) : List String :=
  validate_required_fields
    [(.strField u.nome, "Nome é obrigatório"),
     (.strField u.email, "Email é obrigatório"),
     (.intField u.nivel_permissao, "Nível de permissão é obrigatório")]
  ++ (if u.email ≠ "" ∧ ¬('@' ∈ u.email.data) then ["Email inválido"] else [])
  ++ (match u.nivel_permissao with
      | some n => if n ≠ 1 ∧ n ≠ 2 ∧ n ≠ 3 then ["Nível de permissão inválido"] else []
      | none => [])
  ++ (if u.id = none ∧ optStrTruthy u.senha_hash = false then
        ["Senha é obrigatória para novos usuários"]
      else [])

/-- `Usuario.get_by_email`: the first `usuarios` row with the given email
(the source wraps the row into a `Usuario` object; the id comparison in
`save` only looks at the row id, so the row itself is returned here). -/
def Usuario.getByEmail (db : DB) (email : String) : Option UsuarioRow :=
  db.usuarios.find? fun r => r.email = email

/-- The UPDATE statement of `Usuario.save`, applied to one table row. -/
def Usuario.updateRow (u : Usuario) (uid : Nat) (r : UsuarioRow) : UsuarioRow :=
  if r.id = uid then
    { r with nome := u.nome, email := u.email, senha_hash := u.senha_hash,
             nivel_permissao := u.nivel_permissao,
             ativo := if u.ativo then 1 else 0 }
  else r

/-- `Usuario.save`: validates, then rejects duplicate emails (any existing
row on INSERT, a row of another id on UPDATE) before writing. -/
def Usuario.save (u : Usuario) (db : DB) : Bool × Usuario × DB :=
  if u.validate ≠ [] then (false, u, db)
  else match u.id with
    | none =>
        match Usuario.getByEmail db u.email with
        | some _ => (false, u, db)
        | none =>
            let row : UsuarioRow := ⟨db.nextUsuarioId, u.nome, u.email, u.senha_hash,
                                     u.nivel_permissao, if u.ativo then 1 else 0, none⟩
            (true, { u with id := some db.nextUsuarioId },
             { db with usuarios := db.usuarios ++ [row],
                       nextUsuarioId := db.nextUsuarioId + 1 })
    | some uid =>
        match Usuario.getByEmail db u.email with
        | some ex =>
            if ex.id ≠ uid then (false, u, db)
            else (true, u, { db with usuarios := db.usuarios.map (u.updateRow uid) })
        | none =>
            (true, u, { db with usuarios := db.usuarios.map (u.updateRow uid) })

/-- The `Atendimento` model object (`models/atendimento/atendimento.py`). -/
structure Atendimento where
  id : Option Nat
  imovel_id : Option Nat
  unidade_id : Option Nat := none
  data : String
  resultado : Option String := none
  observacoes : Option String := none
deriving DecidableEq

/-- `Atendimento.validate`: required property and date, and the outcome
enumeration when an outcome is given (Python truthiness on `resultado`). -/
def Atendimento.validate (a : Atendimento) : List String :=
  validate_required_fields
    [(.natField a.imovel_id, "Imóvel é obrigatório"),
     (.strField a.data, "Data é obrigatória")]
  ++ (match a.resultado with
      | some r =>
          if r ≠ "" ∧ r ∉ ["positivo", "ocupante-ausente", "recusou-atendimento", "visitado"] then
            ["Resultado deve ser um dos seguintes: positivo, ocupante-ausente, recusou-atendimento, visitado"]
          else []
      | none => [])

/-- `Atendimento.save`. -/
def Atendimento.save (a : Atendimento) (db : DB) : Bool × Atendimento × DB :=
  if a.validate ≠ [] then (false, a, db)
  else match a.id with
    | none =>
        let row : AtendimentoRow := ⟨db.nextAtendimentoId, a.imovel_id, a.unidade_id,
                                     a.data, a.resultado, a.observacoes⟩
        (true, { a with id := some db.nextAtendimentoId },
         { db with atendimentos := db.atendimentos ++ [row],
                   nextAtendimentoId := db.nextAtendimentoId + 1 })
    | some aid =>
        (true, a,
         { db with atendimentos := db.atendimentos.map fun r =>
             if r.id = aid then { r with imovel_id := a.imovel_id, unidade_id := a.unidade_id,
                                         data := a.data, resultado := a.resultado,
                                         observacoes := a.observacoes }
             else r })

/-- The `Designacao` model object (`models/designacao/designacao.py`). -/
structure Designacao where
  id : Option Nat
  territorio_id : Option Nat
  saida_campo_id : Option Nat
  data_designacao : String
  data_devolucao : Option String := none
  responsavel : Option String := none
  status : String := "ativo"
deriving DecidableEq

/-- `Designacao.validate`: required fields and the two-valued status
enumeration (checked unconditionally; quotes of the source message
dropped). -/
def Designacao.validate (d : Designacao) : List String :=
  validate_required_fields
    [(.natField d.territorio_id, "Território é obrigatório"),
     (.natField d.saida_campo_id, "Saída de campo é obrigatória"),
     (.strField d.data_designacao, "Data de designação é obrigatória"),
     (.strField d.status, "Status é obrigatório")]
  ++ (if d.status ≠ "ativo" ∧ d.status ≠ "concluido" then
        ["Status deve ser ativo ou concluido"]
      else [])

/-- `Designacao.save`. -/
def Designacao.save (d : Designacao) (db : DB) : Bool × Designacao × DB :=
  if d.validate ≠ [] then (false, d, db)
  else match d.id with
    | none =>
        let row : DesignacaoRow := ⟨db.nextDesignacaoId, d.territorio_id, d.saida_campo_id,
                                    d.data_designacao, d.data_devolucao, d.responsavel,
                                    d.status⟩
        (true, { d with id := some db.nextDesignacaoId },
         { db with designacoes := db.designacoes ++ [row],
                   nextDesignacaoId := db.nextDesignacaoId + 1 })
    | some did =>
        (true, d,
         { db with designacoes := db.designacoes.map fun r =>
             if r.id = did then { r with territorio_id := d.territorio_id,
                                         saida_campo_id := d.saida_campo_id,
                                         data_designacao := d.data_designacao,
                                         data_devolucao := d.data_devolucao,
                                         responsavel := d.responsavel,
                                         status := d.status }
             else r })

/-- `Designacao.concluir`: with a persisted id, sets the object status to
"concluido", issues the UPDATE and returns True; without an id it does
nothing and returns False. -/
def Designacao.concluir (d : Designacao) (db : DB) : Bool × Designacao × DB :=
  match d.id with
  | none => (false, d, db)
  | some did =>
      (true, { d with status := "concluido" },
       { db with designacoes := db.designacoes.map fun r =>
           if r.id = did then { r with status := "concluido" } else r })

/-- Value of a hexadecimal digit, upper or lower case. -/
def hexDigit? (c : Char) : Option Nat :=
  if '0' ≤ c ∧ c ≤ '9' then some (c.toNat - '0'.toNat)
  else if 'a' ≤ c ∧ c ≤ 'f' then some (c.toNat - 'a'.toNat + 10)
  else if 'A' ≤ c ∧ c ≤ 'F' then some (c.toNat - 'A'.toNat + 10)
  else none

/-- ASCII whitespace as skipped by CPython `bytes.fromhex`. -/
def isPySpace (c : Char) : Bool :=
  c = ' ' ∨ c = '\t' ∨ c = '\n' ∨ c = '\r' ∨ c = '\x0b' ∨ c = '\x0c'

/-- `bytes.fromhex` on a character list: two hex digits per byte, ASCII
whitespace skipped between byte pairs (but not inside one); anything else
raises `ValueError`, modelled as `none`. -/
def bytesFromHexAux : List Char → Option (List Nat)
  | [] => some []
  | c :: cs =>
      if isPySpace c then bytesFromHexAux cs
      else match cs with
        | [] => none
        | c2 :: cs2 =>
            match hexDigit? c, hexDigit? c2 with
            | some hi, some lo => (bytesFromHexAux cs2).map fun bs => (hi * 16 + lo) :: bs
            | _, _ => none

/-- `bytes.fromhex` on a string. -/
def bytesFromHex (s : String) : Option (List Nat) :=
  bytesFromHexAux s.data

/-- The common body of `AuthService._verificar_senha` and
`Usuario.verificar_senha`: split the stored value at ":", hex-decode salt
and hash, recompute the key-derivation on the candidate password and
compare. Any parsing failure (wrong number of ":"-separated parts, invalid
hex) raises in Python and is caught, yielding False. `pbkdf2` abstracts
`hashlib.pbkdf2_hmac("sha256", senha, salt, 100000)`. -/
def verificarSenhaStr (pbkdf2 : String → List Nat → List Nat)
    (senha senhaHash : String) : Bool :=
  match splitChar senhaHash ':' with
  | [saltStr, hashStr] =>
      match bytesFromHex saltStr, bytesFromHex hashStr with
      | some salt, some hashStored => pbkdf2 senha salt = hashStored
      | _, _ => false
  | _ => false

/-- `AuthService._verificar_senha`: a NULL stored hash raises inside the
`try` (attribute access on `None`) and is caught, yielding False. -/
def AuthService.verificarSenha (pbkdf2 : String → List Nat → List Nat)
    (senha : String) (senhaHash : Option String) : Bool :=
  match senhaHash with
  | none => false
  | some s => verificarSenhaStr pbkdf2 senha s

/-- `Usuario.verificar_senha`: additionally short-circuits on a falsy
(`None` or empty) stored hash before parsing. -/
def Usuario.verificarSenha (pbkdf2 : String → List Nat → List Nat)
    (u : Usuario) (senha : String) : Bool :=
  match u.senha_hash with
  | none => false
  | some s => if s = "" then false else verificarSenhaStr pbkdf2 senha s

/-- The user record returned by a successful `authenticate`: the row the
email lookup produced, augmented with the fresh session token
(`usuario_dict["token"] = token`). -/
structure AuthUser where
  row : UsuarioRow
  token : String
deriving DecidableEq

/-- `AuthService.criar_sessao`: persists a session row under the fresh
token with an absolute expiry. Token generation (`secrets.token_hex`) and
expiry formatting (`datetime.now() + timedelta`) are nondeterministic
inputs, passed in as `token` and `expira`. -/
def AuthService.criarSessao (db : DB) (usuarioId : Nat) (token expira : String) : DB :=
  { db with sessoes := db.sessoes ++ [⟨usuarioId, token, expira⟩] }

/-- `AuthService._registrar_login`. -/
def AuthService.registrarLogin (db : DB) (usuarioId : Nat) : DB :=
  { db with log_atividades :=
      db.log_atividades ++ [⟨usuarioId, "login", "Login realizado com sucesso"⟩] }

/-- `AuthService.authenticate`: selects the first active row with the
given email, verifies the password, then updates the last-activity
timestamp (a column outside the manifest schema; the swallowed UPDATE does
not change any modelled column), creates the session, logs the login and
returns the augmented record. Fails closed on a missing row or a failed
verification. -/
def AuthService.authenticate (pbkdf2 : String → List Nat → List Nat)
    (token expira : String) (db : DB) (email senha : String) :
    Bool × Option AuthUser × DB :=
  match db.usuarios.find? (fun r => r.email = email ∧ r.ativo = 1) with
  | none => (false, none, db)
  | some u =>
      if AuthService.verificarSenha pbkdf2 senha u.senha_hash then
        let db1 := AuthService.criarSessao db u.id token expira
        let db2 := AuthService.registrarLogin db1 u.id
        (true, some ⟨u, token⟩, db2)
      else (false, none, db)

/-- The live schema as observed through `sqlite_master` and
`PRAGMA table_info`: table list, per-table (column, type) list and
per-table index list. -/
structure LiveSchema where
  tables : List String
  columns : String → List (String × String)
  indices : String → List String

/-- The expected-table manifest of `SchemaValidator._get_expected_tables`
(13 tables with their named columns). -/
def expectedTables : List (String × List (String × String)) :=
  [("territorios",
    [("id", "INTEGER"), ("nome", "TEXT"), ("descricao", "TEXT"),
     ("ultima_visita", "TEXT"), ("data_criacao", "TEXT")]),
   ("ruas",
    [("id", "INTEGER"), ("territorio_id", "INTEGER"), ("nome", "TEXT")]),
   ("imoveis",
    [("id", "INTEGER"), ("rua_id", "INTEGER"), ("numero", "TEXT"),
     ("tipo", "TEXT"), ("nome", "TEXT"), ("total_unidades", "INTEGER"),
     ("tipo_portaria", "TEXT"), ("tipo_acesso", "TEXT"), ("observacoes", "TEXT")]),
   ("unidades",
    [("id", "INTEGER"), ("imovel_id", "INTEGER"), ("numero", "TEXT"),
     ("observacoes", "TEXT")]),
   ("saidas_campo",
    [("id", "INTEGER"), ("nome", "TEXT"), ("data", "TEXT"),
     ("dia_semana", "TEXT"), ("horario", "TEXT"), ("dirigente", "TEXT"),
     ("data_criacao", "TEXT")]),
   ("designacoes",
    [("id", "INTEGER"), ("territorio_id", "INTEGER"), ("saida_campo_id", "INTEGER"),
     ("data_designacao", "TEXT"), ("data_devolucao", "TEXT"),
     ("responsavel", "TEXT"), ("status", "TEXT")]),
   ("atendimentos",
    [("id", "INTEGER"), ("imovel_id", "INTEGER"), ("unidade_id", "INTEGER"),
     ("data", "TEXT"), ("resultado", "TEXT"), ("observacoes", "TEXT"),
     ("data_registro", "TEXT")]),
   ("historico_predios_vilas",
    [("id", "INTEGER"), ("imovel_id", "INTEGER"), ("data", "TEXT"),
     ("descricao", "TEXT"), ("data_registro", "TEXT")]),
   ("designacoes_predios_vilas",
    [("id", "INTEGER"), ("imovel_id", "INTEGER"), ("responsavel", "TEXT"),
     ("saida_campo_id", "INTEGER"), ("data_designacao", "TEXT"),
     ("data_devolucao", "TEXT"), ("status", "TEXT")]),
   ("usuarios",
    [("id", "INTEGER"), ("nome", "TEXT"), ("email", "TEXT"),
     ("senha_hash", "TEXT"), ("nivel_permissao", "INTEGER"),
     ("ativo", "INTEGER"), ("data_criacao", "TEXT")]),
   ("log_atividades",
    [("id", "INTEGER"), ("usuario_id", "INTEGER"), ("tipo_acao", "TEXT"),
     ("descricao", "TEXT"), ("data_hora", "TEXT"), ("entidade", "TEXT"),
     ("entidade_id", "INTEGER")]),
   ("notificacoes",
    [("id", "INTEGER"), ("usuario_id", "INTEGER"), ("tipo", "TEXT"),
     ("titulo", "TEXT"), ("mensagem", "TEXT"), ("status", "TEXT"),
     ("data_criacao", "TEXT"), ("data_leitura", "TEXT"), ("link", "TEXT"),
     ("entidade", "TEXT"), ("entidade_id", "INTEGER")]),
   ("relatorios",
    [("id", "INTEGER"), ("nome", "TEXT"), ("tipo", "TEXT"),
     ("filtros", "TEXT"), ("usuario_id", "INTEGER"), ("data_criacao", "TEXT"),
     ("ultima_execucao", "TEXT")])]

/-- The names of the manifest tables. -/
def expectedTableNames : List String :=
  expectedTables.map Prod.fst

/-- `SchemaValidator._get_expected_indices`: per-table expected index
names, empty for tables outside the mapping. -/
def expectedIndices (t : String) : List String :=
  if t = "usuarios" then ["idx_usuarios_email"]
  else if t = "log_atividades" then ["idx_log_usuario_id", "idx_log_data_hora"]
  else if t = "notificacoes" then ["idx_notificacoes_usuario_id", "idx_notificacoes_status"]
  else if t = "ruas" then ["idx_ruas_territorio_id"]
  else if t = "imoveis" then ["idx_imoveis_rua_id"]
  else if t = "unidades" then ["idx_unidades_imovel_id"]
  else if t = "designacoes" then ["idx_designacoes_territorio_id", "idx_designacoes_saida_campo_id"]
  else if t = "atendimentos" then ["idx_atendimentos_imovel_id"]
  else if t = "historico_predios_vilas" then ["idx_historico_imovel_id"]
  else if t = "designacoes_predios_vilas" then ["idx_designacoes_predios_vilas_imovel_id"]
  else if t = "relatorios" then ["idx_relatorios_usuario_id", "idx_relatorios_tipo", "idx_relatorios_ultima_execucao"]
  else []

/-- The per-table column check of `validate_schema`: a manifest table is
skipped when absent (the table pass already reported it); a present one
contributes a problem line when manifest column names are missing from
its `PRAGMA table_info` column names (types are never compared). -/
def colProblem (s : LiveSchema) (tc : String × List (String × String)) : List String :=
  if tc.1 ∈ s.tables then
    (let missingCols :=
      (tc.2.map Prod.fst).filter fun c => ¬c ∈ (s.columns tc.1).map Prod.fst
     if missingCols ≠ [] then
       ["Tabela " ++ tc.1 ++ ": colunas ausentes: " ++
        String.intercalate ", " missingCols]
     else [])
  else []

/-- The per-table index check of `validate_schema`, run for every existing
table (expected indices default to none off the manifest mapping). -/
def idxProblem (s : LiveSchema) (t : String) : List String :=
  let missingIdx := (expectedIndices t).filter fun i => ¬i ∈ s.indices t
  if missingIdx ≠ [] then
    ["Tabela " ++ t ++ ": índices ausentes: " ++ String.intercalate ", " missingIdx]
  else []

/-- `SchemaValidator.validate_schema`: reports missing manifest tables,
missing manifest columns of present manifest tables, and missing expected
indices of every existing table; valid iff no problem was found. Python
iterates the table sets in unspecified order and prints a Python list in
the index message; the embedding iterates in manifest order, which changes
only the ordering and exact text of the problem strings, never their
presence. -/
def validateSchema (s : LiveSchema) : Bool × List String :=
  let missingTables := expectedTableNames.filter fun t => ¬t ∈ s.tables
  let p1 : List String :=
    if missingTables ≠ [] then
      ["Tabelas ausentes: " ++ String.intercalate ", " missingTables]
    else []
  let p2 : List String := expectedTables.foldr (fun tc acc => colProblem s tc ++ acc) []
  let p3 : List String := s.tables.foldr (fun t acc => idxProblem s t ++ acc) []
  let problemas := p1 ++ p2 ++ p3
  (problemas.isEmpty, problemas)

/-- What happens to one schema script inside `fix_schema_issues`:
`raisedError m` models an exception before or around the gateway call
(typically `open()` on a missing or unreadable script file), which the
`except` branch turns into an error log entry and an immediate return;
`executed ok` models a completed `db_manager.execute(schema_sql)` call,
whose cursor-or-`None` result the source never inspects (`ok = false` is a
swallowed sqlite error, e.g. the multi-statement script rejected by
`cursor.execute`). -/
inductive ScriptOutcome where
  | raisedError (msg : String)
  | executed (ok : Bool)
deriving DecidableEq

/-- The ordered schema scripts of `fix_schema_issues`. -/
def schemaFiles : List String :=
  ["schema_base.sql", "schema_usuarios.sql", "schema_relatorios.sql"]

/-- The environment a `fix_schema_issues` run observes: the initial
`validate_schema` verdict, one outcome per schema script, and the final
re-validation verdict. -/
structure FixEnv where
  initialValid : Bool
  outcomes : List ScriptOutcome
  finalValid : Bool
  finalProblems : List String
deriving DecidableEq

/-- Result of `fix_schema_issues`: the returned pair plus the list of
scripts whose gateway call actually ran (for reasoning about "runs no
later script"). -/
structure FixResult where
  success : Bool
  acoes : List String
  executed : List String
deriving DecidableEq

/-- The script loop of `fix_schema_issues`: returns the log entries it
appended, the scripts it ran, and whether it aborted. -/
def fixLoop : List (String × ScriptOutcome) → List String × List String × Bool
  | [] => ([], [], false)
  | (file, o) :: rest =>
      match o with
      | .raisedError m => (["Erro ao executar " ++ file ++ ": " ++ m], [], true)
      | .executed _ =>
          let r := fixLoop rest
          (("Executado arquivo de esquema: " ++ file) :: r.1, file :: r.2.1, r.2.2)

/-- `SchemaValidator.fix_schema_issues` over an observed environment. -/
def fixSchemaIssues (env : FixEnv) : FixResult :=
  if env.initialValid then
    ⟨true, ["O esquema do banco de dados já está correto, nenhuma ação necessária."], []⟩
  else
    let r := fixLoop (schemaFiles.zip env.outcomes)
    if r.2.2 then ⟨false, r.1, r.2.1⟩
    else if env.finalValid then
      ⟨true, r.1 ++ ["Todos os problemas de esquema foram corrigidos com sucesso."], r.2.1⟩
    else
      ⟨false,
       r.1 ++ ["Alguns problemas de esquema persistem após a tentativa de correção:"]
          ++ env.finalProblems.map (fun p => "- " ++ p),
       r.2.1⟩

/-- A file in the backup directory: name and modification time
(`os.path.getmtime`, seconds). -/
structure FileEnt where
  name : String
  mtime : Int
deriving DecidableEq

/-- The backup-directory filter of `clean_old_backups` and
`list_backups`. -/
def isBackupFile (name : String) : Bool :=
  "backup_".data.isPrefixOf name.data ∧ ".db".data.isSuffixOf name.data

/-- The `database` section keys that `clean_old_backups` reads with
`.get(key, default)`. Neither key exists in the shipped `DEFAULT_CONFIG`
of `src/config.py`, so the stock configuration is `⟨none, none⟩` and the
fallbacks 30 and 10 apply. -/
structure BackupConfig where
  backup_retention_days : Option Int := none
  max_backup_files : Option Int := none
deriving DecidableEq

/-- The `if not arg: arg = config.get(key, dflt)` resolution: a `None` or
`0` argument is falsy and is replaced by the configured value (itself
defaulted when the key is absent). -/
def resolveThreshold (arg : Option Int) (cfgVal : Option Int) (dflt : Int) : Int :=
  match arg with
  | none => cfgVal.getD dflt
  | some v => if v ≠ 0 then v else cfgVal.getD dflt

/-- Descending stable insertion by mtime, modelling
`backups.sort(key=lambda x: x[1], reverse=True)`. -/
def insertByMtimeDesc (f : FileEnt) : List FileEnt → List FileEnt
  | [] => [f]
  | g :: gs => if f.mtime > g.mtime then f :: g :: gs else g :: insertByMtimeDesc f gs

/-- Sort of the backup listing, most recent first. -/
def sortByMtimeDesc : List FileEnt → List FileEnt
  | [] => []
  | f :: fs => insertByMtimeDesc f (sortByMtimeDesc fs)

/-- The body of `clean_old_backups` once both thresholds are resolved:
collect the backup-named files, mark those older than the age cutoff
(when `maxDays > 0`) and those beyond the `maxFiles` most recent (when
`maxFiles > 0`) — both computed from the same directory listing — and
remove the marked names. -/
def cleanWithThresholds (files : List FileEnt) (now maxDays maxFiles : Int) :
    List FileEnt :=
  let backups := files.filter fun f => isBackupFile f.name
  let removedAge :=
    if maxDays > 0 then backups.filter (fun f => f.mtime < now - maxDays * 86400) else []
  let removedCount :=
    if maxFiles > 0 then (sortByMtimeDesc backups).drop maxFiles.toNat else []
  let removedNames := (removedAge ++ removedCount).map FileEnt.name
  files.filter fun f => ¬f.name ∈ removedNames

/-- `clean_old_backups(backup_dir, max_days, max_files)`. -/
def cleanOldBackups (cfg : BackupConfig) (files : List FileEnt) (now : Int)
    (maxDaysArg maxFilesArg : Option Int) : List FileEnt :=
  cleanWithThresholds files now
    (resolveThreshold maxDaysArg cfg.backup_retention_days 30)
    (resolveThreshold maxFilesArg cfg.max_backup_files 10)

/-- `create_backup`: with no live database file it returns `None`; else it
copies the database into the backup directory under a timestamped name and
prunes with the configured thresholds. `stampName` is the generated
`backup_YYYYMMDD_HHMMSS.db` name and `newMtime` the copied file's mtime
(`shutil.copy2` preserves the just-vacuumed database file's mtime). -/
def createBackup (cfg : BackupConfig) (dbExists : Bool) (stampName : String)
    (newMtime now : Int) (dir : List FileEnt) : Option String × List FileEnt :=
  if ¬dbExists then (none, dir)
  else
    let dir1 := dir ++ [⟨stampName, newMtime⟩]
    (some stampName, cleanOldBackups cfg dir1 now none none)

/-! Concrete instances used by counterexamples and witnesses. -/

/-- A fresh five-unit building: street 1, street number "10". -/
def imPredioCinco : Imovel :=
  ⟨none, some 1, "10", "predio", none, some 5, none, none, none⟩

/-- The five unit rows `Imovel._criar_unidades` produces for a building,
starting at unit id `k`, owned by property `j`. -/
def cincoApartamentos (k j : Nat) : List UnidadeRow :=
  [⟨k, some j, "Apto 01", none⟩, ⟨k + 1, some j, "Apto 02", none⟩,
   ⟨k + 2, some j, "Apto 03", none⟩, ⟨k + 3, some j, "Apto 04", none⟩,
   ⟨k + 4, some j, "Apto 05", none⟩]

/-- The expected columns of one manifest table (empty off the manifest). -/
def expectedColumnsOf (t : String) : List (String × String) :=
  ((expectedTables.find? fun tc => tc.1 = t).map Prod.snd).getD []

/-- A live schema carrying exactly the manifest tables, columns and
indices. -/
def fullSchema : LiveSchema :=
  ⟨expectedTableNames, expectedColumnsOf, expectedIndices⟩

/-- A key-derivation stand-in for witnesses and counterexamples: salt bytes
followed by the password length. -/
def pbkdf2Toy : String → List Nat → List Nat :=
  fun senha salt => salt ++ [senha.length]

/-- A key-derivation stand-in whose output is the single byte 0xdd. -/
def pbkdf2Cex : String → List Nat → List Nat :=
  fun _ _ => [221]

/-- A one-user database for the authentication witness: the stored hash of
the password "segredo" under `pbkdf2Toy` and the salt byte 0x0a. -/
def dbAuth : DB :=
  { usuarios := [⟨1, "Ana", "ana@ex.com", some "0a:0a07", some 3, 1, none⟩] }

/-- A two-user database for the email-uniqueness witness. -/
def dbDoisUsuarios : DB :=
  { usuarios := [⟨1, "Ana", "ana@ex.com", some "s:aa", some 1, 1, none⟩,
                 ⟨2, "Bia", "bia@ex.com", some "s:bb", some 1, 1, none⟩] }

/-- An update of user 1 to a fresh email. -/
def uAtualiza : Usuario :=
  ⟨some 1, "Ana", "nova@ex.com", some "s:aa", some 1, true, none⟩

/-- Twelve existing backup files, oldest first (mtimes 1..12). -/
def dozeBackups : List FileEnt :=
  [⟨"backup_01.db", 1⟩, ⟨"backup_02.db", 2⟩, ⟨"backup_03.db", 3⟩,
   ⟨"backup_04.db", 4⟩, ⟨"backup_05.db", 5⟩, ⟨"backup_06.db", 6⟩,
   ⟨"backup_07.db", 7⟩, ⟨"backup_08.db", 8⟩, ⟨"backup_09.db", 9⟩,
   ⟨"backup_10.db", 10⟩, ⟨"backup_11.db", 11⟩, ⟨"backup_12.db", 12⟩]

/-- Eleven existing backup files, oldest first (mtimes 1..11). -/
def onzeBackups : List FileEnt :=
  dozeBackups.take 11

/-- A `fix_schema_issues` environment where the second script's SQL is
rejected by the gateway (swallowed, `executed false`) and the final
re-validation still fails. -/
def envExecFalha : FixEnv :=
  ⟨false, [.executed true, .executed false, .executed true], false,
   ["Tabelas ausentes: notificacoes"]⟩

/-- A `fix_schema_issues` environment where reading the second script
raises. -/
def envLeituraFalha : FixEnv :=
  ⟨false, [.executed true, .raisedError "arquivo não encontrado", .executed true],
   false, []⟩

/-! Theorems. -/

/-- C1: counterexample — saving a fresh five-unit building creates units
labelled "Apto 01".."Apto 05" (Portuguese abbreviation used by
`Imovel._criar_unidades`), not "Apt 01".."Apt 05" as the claim states; the
save itself succeeds, assigns id 1 and `get_by_imovel` returns the five
rows in that label order. -/
theorem predio_labels_cex :
    (Imovel.save imPredioCinco {}).1 = true ∧
    (Imovel.save imPredioCinco {}).2.1.id = some 1 ∧
    (Unidade.getByImovel (Imovel.save imPredioCinco {}).2.2 1).map UnidadeRow.numero =
      ["Apto 01", "Apto 02", "Apto 03", "Apto 04", "Apto 05"] ∧
    (Unidade.getByImovel (Imovel.save imPredioCinco {}).2.2 1).map UnidadeRow.numero ≠
      ["Apt 01", "Apt 02", "Apt 03", "Apt 04", "Apt 05"] := by
  decide

/-- C1 (amended): for every newly saved `Imovel` (id unset) of kind
"predio" with total-unit-count 5 that passes validation, against a
database holding no unit row of the id about to be assigned, a successful
save inserts the property row and creates exactly 5 unit rows labelled
"Apto 01".."Apto 05", and `get_by_imovel` on that property returns exactly
those 5 rows in label order. -/
theorem predio_save_cinco_unidades (db : DB) (im : Imovel)
    (hid : im.id = none) (htipo : im.tipo = "predio")
    (htu : im.total_unidades = some 5) (hval : im.validate = [])
    (hfresh : ∀ u ∈ db.unidades, u.imovel_id ≠ some db.nextImovelId) :
    (Imovel.save im db).1 = true ∧
    (Imovel.save im db).2.1.id = some db.nextImovelId ∧
    (Imovel.save im db).2.2.imoveis = db.imoveis ++
      [⟨db.nextImovelId, im.rua_id, im.numero, "predio", im.nome, some 5,
        im.tipo_portaria, im.tipo_acesso, im.observacoes⟩] ∧
    (Imovel.save im db).2.2.unidades = db.unidades ++
      cincoApartamentos db.nextUnidadeId db.nextImovelId ∧
    Unidade.getByImovel (Imovel.save im db).2.2 db.nextImovelId =
      cincoApartamentos db.nextUnidadeId db.nextImovelId := by
  have hsave : Imovel.save im db =
      (true, { im with id := some db.nextImovelId },
       { db with
           imoveis := db.imoveis ++
             [⟨db.nextImovelId, im.rua_id, im.numero, "predio", im.nome, some 5,
               im.tipo_portaria, im.tipo_acesso, im.observacoes⟩],
           nextImovelId := db.nextImovelId + 1,
           unidades := db.unidades ++ cincoApartamentos db.nextUnidadeId db.nextImovelId,
           nextUnidadeId := db.nextUnidadeId + 5 }) := by
    simp [Imovel.save, hval, hid, htipo, htu, Imovel.criarUnidades, intTruthy,
          Unidade.save, Unidade.validate, validate_required_fields, fieldMissing,
          pyBlank, List.range, List.range.loop, pad2, cincoApartamentos]
    decide
  have hnil : db.unidades.filter (fun u => u.imovel_id = some db.nextImovelId) = [] := by
    rw [List.filter_eq_nil_iff]
    intro u hu
    simp [hfresh u hu]
  refine ⟨by rw [hsave], by rw [hsave], by rw [hsave], by rw [hsave], ?_⟩
  rw [hsave]
  simp [Unidade.getByImovel, List.filter_append, hnil, cincoApartamentos,
        sortByNumero, insertByNumero, strLe, charListLe]

/-- C1 (amended) at a concrete input: the fresh building saved into the
empty database. -/
theorem predio_save_cinco_unidades_witness :
    (Imovel.save imPredioCinco {}).1 = true ∧
    (Imovel.save imPredioCinco {}).2.1.id = some 1 ∧
    (Imovel.save imPredioCinco {}).2.2.imoveis = [] ++
      [⟨1, imPredioCinco.rua_id, imPredioCinco.numero, "predio", imPredioCinco.nome,
        some 5, imPredioCinco.tipo_portaria, imPredioCinco.tipo_acesso,
        imPredioCinco.observacoes⟩] ∧
    (Imovel.save imPredioCinco {}).2.2.unidades = [] ++ cincoApartamentos 1 1 ∧
    Unidade.getByImovel (Imovel.save imPredioCinco {}).2.2 1 = cincoApartamentos 1 1 :=
  predio_save_cinco_unidades {} imPredioCinco (by decide) (by decide) (by decide)
    (by decide) (by decide)

/-- C2: whenever `validate()` returns a non-empty error list, `save`
returns False and performs no INSERT or UPDATE: the object and the whole
database state are returned unchanged, for each of the four entities. -/
theorem validate_nonempty_save_noop :
    (∀ (im : Imovel) (db : DB), im.validate ≠ [] → Imovel.save im db = (false, im, db)) ∧
    (∀ (u : Usuario) (db : DB), u.validate ≠ [] → Usuario.save u db = (false, u, db)) ∧
    (∀ (a : Atendimento) (db : DB), a.validate ≠ [] → Atendimento.save a db = (false, a, db)) ∧
    (∀ (d : Designacao) (db : DB), d.validate ≠ [] → Designacao.save d db = (false, d, db)) := by
  refine ⟨fun im db h => ?_, fun u db h => ?_, fun a db h => ?_, fun d db h => ?_⟩
  · simp [Imovel.save, h]
  · simp [Usuario.save, h]
  · simp [Atendimento.save, h]
  · simp [Designacao.save, h]

/-- C2 at concrete inputs: each entity with empty required fields is
rejected without touching the empty database. -/
theorem validate_nonempty_save_noop_witness :
    Imovel.save ⟨none, none, "", "", none, none, none, none, none⟩ {} =
      (false, ⟨none, none, "", "", none, none, none, none, none⟩, {}) ∧
    Usuario.save ⟨none, "", "", none, none, true, none⟩ {} =
      (false, ⟨none, "", "", none, none, true, none⟩, {}) ∧
    Atendimento.save ⟨none, none, none, "", none, none⟩ {} =
      (false, ⟨none, none, none, "", none, none⟩, {}) ∧
    Designacao.save ⟨none, none, none, "", none, none, ""⟩ {} =
      (false, ⟨none, none, none, "", none, none, ""⟩, {}) :=
  ⟨validate_nonempty_save_noop.1 _ {} (by decide),
   validate_nonempty_save_noop.2.1 _ {} (by decide),
   validate_nonempty_save_noop.2.2.1 _ {} (by decide),
   validate_nonempty_save_noop.2.2.2 _ {} (by decide)⟩

/-- C8: on an assignment with a persisted id, `concluir` returns True and
sets the status to "concluido"; a second call again returns True, leaves
the object status "concluido" and leaves the database unchanged; and the
operation never moves a row status outside the two-valued domain: if every
stored status was "ativo" or "concluido" before, it still is after. -/
theorem concluir_idempotente (d : Designacao) (db : DB) (i : Nat) (hid : d.id = some i) :
    (Designacao.concluir d db).1 = true ∧
    (Designacao.concluir d db).2.1.status = "concluido" ∧
    (Designacao.concluir (Designacao.concluir d db).2.1 (Designacao.concluir d db).2.2).1 =
      true ∧
    (Designacao.concluir (Designacao.concluir d db).2.1
        (Designacao.concluir d db).2.2).2.1.status = "concluido" ∧
    (Designacao.concluir (Designacao.concluir d db).2.1
        (Designacao.concluir d db).2.2).2.2 = (Designacao.concluir d db).2.2 ∧
    ((∀ r ∈ db.designacoes, r.status = "ativo" ∨ r.status = "concluido") →
      ∀ r ∈ (Designacao.concluir d db).2.2.designacoes,
        r.status = "ativo" ∨ r.status = "concluido") := by
  have hff : ∀ r : DesignacaoRow,
      (fun r : DesignacaoRow => if r.id = i then { r with status := "concluido" } else r)
        ((fun r : DesignacaoRow => if r.id = i then { r with status := "concluido" } else r) r)
      = (fun r : DesignacaoRow => if r.id = i then { r with status := "concluido" } else r) r := by
    intro r
    by_cases h : r.id = i <;> simp [h]
  refine ⟨by simp [Designacao.concluir, hid], by simp [Designacao.concluir, hid],
          by simp [Designacao.concluir, hid], by simp [Designacao.concluir, hid], ?_, ?_⟩
  · simp only [Designacao.concluir, hid]
    congr 1
    rw [List.map_map]
    exact List.map_congr_left fun r _ => hff r
  · intro hpre r hr
    simp only [Designacao.concluir, hid, List.mem_map] at hr
    rcases hr with ⟨r0, hr0, rfl⟩
    by_cases h : r0.id = i
    · simp [h]
    · simpa [h] using hpre r0 hr0

/-- C8 at a concrete input: a persisted assignment in a one-row
database. -/
theorem concluir_idempotente_witness :
    (Designacao.concluir ⟨some 1, some 1, some 1, "2024-01-01", none, none, "ativo"⟩
        { designacoes := [⟨1, some 1, some 1, "2024-01-01", none, none, "ativo"⟩] }).1 =
      true ∧
    (Designacao.concluir ⟨some 1, some 1, some 1, "2024-01-01", none, none, "ativo"⟩
        { designacoes := [⟨1, some 1, some 1, "2024-01-01", none, none, "ativo"⟩] }).2.1.status =
      "concluido" ∧ True :=
  ⟨(concluir_idempotente ⟨some 1, some 1, some 1, "2024-01-01", none, none, "ativo"⟩
      { designacoes := [⟨1, some 1, some 1, "2024-01-01", none, none, "ativo"⟩] } 1 rfl).1,
   (concluir_idempotente ⟨some 1, some 1, some 1, "2024-01-01", none, none, "ativo"⟩
      { designacoes := [⟨1, some 1, some 1, "2024-01-01", none, none, "ativo"⟩] } 1 rfl).2.1,
   trivial⟩

/-- C10: a `max_days` or `max_files` argument of 0 is falsy in the
`if not arg` resolution and is therefore replaced by the configured value
(default 30 days / 10 files), exactly as if the argument had been omitted;
pruning is not disabled — with the stock configuration and eleven backup
files, a call passing 0 for both thresholds still deletes a file. -/
theorem clean_zero_args (cfg : BackupConfig) (files : List FileEnt) (now : Int) :
    cleanOldBackups cfg files now (some 0) (some 0) =
      cleanOldBackups cfg files now none none ∧
    cleanOldBackups cfg files now (some 0) (some 0) =
      cleanWithThresholds files now (cfg.backup_retention_days.getD 30)
        (cfg.max_backup_files.getD 10) ∧
    cleanOldBackups {} onzeBackups 100 (some 0) (some 0) ≠ onzeBackups := by
  refine ⟨?_, ?_, by decide⟩ <;> simp [cleanOldBackups, resolveThreshold]

/-- C9: counterexample — `bytes.fromhex` skips ASCII whitespace between
byte pairs, so the stored value "aa bb:dd", whose salt part contains a
character that is not a hexadecimal digit, still parses and verifies
successfully (here under a stand-in key derivation returning 0xdd; with
the real PBKDF2 the same holds for the stored value "aa bb:" followed by
the hex of pbkdf2(password, bytes aa bb)). The claim says every stored
string that is not of the hex:hex form yields False. -/
theorem verificar_senha_space_hex_cex :
    verificarSenhaStr pbkdf2Cex "qualquer" "aa bb:dd" = true ∧
    AuthService.verificarSenha pbkdf2Cex "qualquer" (some "aa bb:dd") = true ∧
    (splitChar "aa bb:dd" ':').map (fun p => p.data.all fun c => (hexDigit? c).isSome) =
      [false, true] := by
  decide

/-- C9 (amended): password verification is total and fails closed — it
returns True exactly when the stored value splits at a single ":" into two
parts that both decode under `bytes.fromhex` (two hex digits per byte,
ASCII whitespace permitted between byte pairs) and the recomputed hash of
the candidate password under the decoded salt equals the decoded stored
hash; in every other case (missing or extra separator, undecodable
characters, null or — for the model method — empty stored value) it
returns False rather than raising. Stated for both
`AuthService._verificar_senha` and `Usuario.verificar_senha`, for every
key-derivation function. -/
theorem verificar_senha_fails_closed :
    (∀ (pbkdf2 : String → List Nat → List Nat) (senha stored : String),
       verificarSenhaStr pbkdf2 senha stored = true ↔
         ∃ a b salt hash, splitChar stored ':' = [a, b] ∧ bytesFromHex a = some salt ∧
           bytesFromHex b = some hash ∧ pbkdf2 senha salt = hash) ∧
    (∀ (pbkdf2 : String → List Nat → List Nat) (senha : String) (sh : Option String),
       AuthService.verificarSenha pbkdf2 senha sh = true ↔
         ∃ s, sh = some s ∧ verificarSenhaStr pbkdf2 senha s = true) ∧
    (∀ (pbkdf2 : String → List Nat → List Nat) (u : Usuario) (senha : String),
       Usuario.verificarSenha pbkdf2 u senha = true ↔
         ∃ s, u.senha_hash = some s ∧ s ≠ "" ∧ verificarSenhaStr pbkdf2 senha s = true) := by
  refine ⟨fun pbkdf2 senha stored => ?_, fun pbkdf2 senha sh => ?_, fun pbkdf2 u senha => ?_⟩
  · simp only [verificarSenhaStr]
    generalize splitChar stored ':' = l
    rcases l with _ | ⟨a, _ | ⟨b, _ | ⟨c, tl⟩⟩⟩
    · simp
    · simp
    · rcases hsa : bytesFromHex a with _ | salt
      · rcases hsb : bytesFromHex b with _ | hash <;> simp [hsa, hsb]
      · rcases hsb : bytesFromHex b with _ | hash
        · simp [hsa, hsb]
        · simp only [hsa, hsb, decide_eq_true_eq]
          constructor
          · intro h
            exact ⟨a, b, salt, hash, rfl, hsa, hsb, h⟩
          · rintro ⟨a', b', salt', hash', heq, hsa', hsb', h'⟩
            obtain ⟨rfl, rfl⟩ : a = a' ∧ b = b' := by simpa using heq
            rw [hsa] at hsa'
            rw [hsb] at hsb'
            obtain rfl := Option.some.inj hsa'
            obtain rfl := Option.some.inj hsb'
            exact h'
    · simp
  · rcases sh with _ | s <;> simp [AuthService.verificarSenha]
  · rcases h : u.senha_hash with _ | s
    · simp [Usuario.verificarSenha, h]
    · by_cases hs : s = "" <;> simp [Usuario.verificarSenha, h, hs]

/-- A fold that appends per-element lists produces nothing when every
element contributes nothing. -/
theorem foldr_append_eq_nil {α β : Type} (l : List α) (f : α → List β)
    (h : ∀ x ∈ l, f x = []) :
    l.foldr (fun x acc => f x ++ acc) [] = [] := by
  induction l with
  | nil => rfl
  | cons x t ih =>
      simp only [List.foldr_cons, h x (by simp), List.nil_append]
      exact ih fun y hy => h y (List.mem_cons_of_mem x hy)

/-- C6: `validate_schema` reports only absence — any live schema that
contains every manifest table, every manifest column of those tables and
every expected index returns `(true, [])`, regardless of extra tables,
columns or indices it may also contain. -/
theorem validate_schema_complete_ok (s : LiveSchema)
    (htab : ∀ t ∈ expectedTableNames, t ∈ s.tables)
    (hcol : ∀ tc ∈ expectedTables, ∀ c ∈ tc.2, c.1 ∈ (s.columns tc.1).map Prod.fst)
    (hidx : ∀ t idx, idx ∈ expectedIndices t → idx ∈ s.indices t) :
    validateSchema s = (true, []) := by
  have h1 : expectedTableNames.filter (fun t => ¬t ∈ s.tables) = [] := by
    rw [List.filter_eq_nil_iff]
    intro t ht
    simp [htab t ht]
  have h2 : expectedTables.foldr (fun tc acc => colProblem s tc ++ acc) [] = [] := by
    refine foldr_append_eq_nil _ _ fun tc htc => ?_
    have hmc : (tc.2.map Prod.fst).filter
        (fun c => ¬c ∈ (s.columns tc.1).map Prod.fst) = [] := by
      rw [List.filter_eq_nil_iff]
      intro c hc
      rcases List.mem_map.mp hc with ⟨p, hp, rfl⟩
      simp [hcol tc htc p hp]
    simp only [colProblem, hmc]
    simp
  have h3 : s.tables.foldr (fun t acc => idxProblem s t ++ acc) [] = [] := by
    refine foldr_append_eq_nil _ _ fun t ht => ?_
    have hmi : (expectedIndices t).filter (fun i => ¬i ∈ s.indices t) = [] := by
      rw [List.filter_eq_nil_iff]
      intro i hi
      simp [hidx t i hi]
    simp only [idxProblem, hmi]
    simp
  simp only [validateSchema, h1, h2, h3]
  simp

/-- C6 at a concrete input: the schema carrying exactly the manifest. -/
theorem validate_schema_complete_ok_witness :
    validateSchema fullSchema = (true, []) :=
  validate_schema_complete_ok fullSchema (fun t ht => ht)
    (by decide) (fun t idx h => h)

/-- C3: `authenticate` succeeds exactly when an active `usuarios` row with
the given email exists whose stored hash verifies against the candidate
password (for every key-derivation function, session token and expiry);
whenever it fails it returns no record, and on success the returned record
is the matching row augmented with the fresh token. Stated under email
uniqueness, which the schema enforces with the unique index
`idx_usuarios_email`. -/
theorem authenticate_spec (pbkdf2 : String → List Nat → List Nat) (token expira : String)
    (db : DB) (email senha : String)
    (hemails : (db.usuarios.map UsuarioRow.email).Nodup) :
    ((AuthService.authenticate pbkdf2 token expira db email senha).1 = true ↔
      ∃ u ∈ db.usuarios, u.email = email ∧ u.ativo = 1 ∧
        AuthService.verificarSenha pbkdf2 senha u.senha_hash = true) ∧
    ((AuthService.authenticate pbkdf2 token expira db email senha).1 = false →
      (AuthService.authenticate pbkdf2 token expira db email senha).2.1 = none) ∧
    (∀ u ∈ db.usuarios, u.email = email → u.ativo = 1 →
      AuthService.verificarSenha pbkdf2 senha u.senha_hash = true →
      (AuthService.authenticate pbkdf2 token expira db email senha).2.1 = some ⟨u, token⟩) := by
  cases hfind : db.usuarios.find? (fun r => r.email = email ∧ r.ativo = 1) with
  | none =>
      have hno : ∀ u ∈ db.usuarios, ¬(u.email = email ∧ u.ativo = 1) := by
        intro u hu
        have h := List.find?_eq_none.mp hfind u hu
        simpa using h
      refine ⟨?_, ?_, ?_⟩
      · simp only [AuthService.authenticate]
        rw [hfind]
        constructor
        · intro h
          simp at h
        · rintro ⟨u, hu, he, ha, hv⟩
          exact absurd ⟨he, ha⟩ (hno u hu)
      · simp only [AuthService.authenticate]
        rw [hfind]
        simp
      · intro u hu he ha hv
        exact absurd ⟨he, ha⟩ (hno u hu)
  | some u0 =>
      have hp := List.find?_some hfind
      have hmem := List.mem_of_find?_eq_some hfind
      have hpe : u0.email = email ∧ u0.ativo = 1 := by simpa using hp
      by_cases hv : AuthService.verificarSenha pbkdf2 senha u0.senha_hash = true
      · refine ⟨?_, ?_, ?_⟩
        · simp only [AuthService.authenticate]
          rw [hfind]
          simp only [hv]
          exact iff_of_true (by simp) ⟨u0, hmem, hpe.1, hpe.2, hv⟩
        · simp only [AuthService.authenticate]
          rw [hfind]
          simp [hv]
        · intro u hu he ha hv2
          have heq : u = u0 :=
            List.inj_on_of_nodup_map hemails hu hmem (by rw [he, hpe.1])
          subst heq
          simp only [AuthService.authenticate]
          rw [hfind]
          simp [hv]
      · have hvf : AuthService.verificarSenha pbkdf2 senha u0.senha_hash = false := by
          simpa [Bool.not_eq_true] using hv
        refine ⟨?_, ?_, ?_⟩
        · simp only [AuthService.authenticate]
          rw [hfind]
          simp only [hvf]
          refine iff_of_false (by simp) ?_
          rintro ⟨u, hu, he, ha, hv2⟩
          have heq : u = u0 :=
            List.inj_on_of_nodup_map hemails hu hmem (by rw [he, hpe.1])
          subst heq
          exact hv hv2
        · simp only [AuthService.authenticate]
          rw [hfind]
          simp [hvf]
        · intro u hu he ha hv2
          have heq : u = u0 :=
            List.inj_on_of_nodup_map hemails hu hmem (by rw [he, hpe.1])
          subst heq
          exact absurd hv2 hv

/-- C3 at a concrete input: the one-user database, with matching and
non-matching credentials covered by the instantiated equivalence. -/
theorem authenticate_spec_witness :
    (dbAuth.usuarios.map UsuarioRow.email).Nodup ∧
    (((AuthService.authenticate pbkdf2Toy "tok" "2025-01-01 00:30:00" dbAuth
        "ana@ex.com" "segredo").1 = true ↔
      ∃ u ∈ dbAuth.usuarios, u.email = "ana@ex.com" ∧ u.ativo = 1 ∧
        AuthService.verificarSenha pbkdf2Toy "segredo" u.senha_hash = true) ∧
    ((AuthService.authenticate pbkdf2Toy "tok" "2025-01-01 00:30:00" dbAuth
        "ana@ex.com" "segredo").1 = false →
      (AuthService.authenticate pbkdf2Toy "tok" "2025-01-01 00:30:00" dbAuth
        "ana@ex.com" "segredo").2.1 = none) ∧
    (∀ u ∈ dbAuth.usuarios, u.email = "ana@ex.com" → u.ativo = 1 →
      AuthService.verificarSenha pbkdf2Toy "segredo" u.senha_hash = true →
      (AuthService.authenticate pbkdf2Toy "tok" "2025-01-01 00:30:00" dbAuth
        "ana@ex.com" "segredo").2.1 = some ⟨u, "tok"⟩)) :=
  ⟨by decide,
   authenticate_spec pbkdf2Toy "tok" "2025-01-01 00:30:00" dbAuth "ana@ex.com" "segredo"
     (by decide)⟩

/-- C4: counterexample — when the second schema script "fails to apply"
at the SQL level, `db_manager.execute` swallows the driver error and
returns None, which `fix_schema_issues` never inspects: the routine logs
the script as executed, continues with the third script and runs it,
contradicting "stops immediately (runs no later script)" and "its action
log lists only the scripts applied before the failure". (Success is still
False here only because the final re-validation fails.) -/
theorem fix_schema_cex :
    envExecFalha.outcomes.getD 1 (ScriptOutcome.executed true) =
      ScriptOutcome.executed false ∧
    (fixSchemaIssues envExecFalha).executed =
      ["schema_base.sql", "schema_usuarios.sql", "schema_relatorios.sql"] ∧
    (fixSchemaIssues envExecFalha).success = false ∧
    (fixSchemaIssues envExecFalha).acoes =
      ["Executado arquivo de esquema: schema_base.sql",
       "Executado arquivo de esquema: schema_usuarios.sql",
       "Executado arquivo de esquema: schema_relatorios.sql",
       "Alguns problemas de esquema persistem após a tentativa de correção:",
       "- Tabelas ausentes: notificacoes"] := by
  decide

/-- C4 (amended): `fix_schema_issues` stops immediately only when applying
a script raises an exception (e.g. the script file cannot be read): then
no later script runs, success is False, and the action log lists the
scripts applied before the failure followed by a single error entry for
the failing script. A script whose SQL execution merely fails inside the
gateway (execute returning None) does not abort: every script runs and is
logged as executed, and success is decided by the final re-validation. -/
theorem fix_schema_abort_spec :
    (∀ (env : FixEnv) (pre rest : List ScriptOutcome) (m : String),
       env.initialValid = false →
       env.outcomes.length = 3 →
       env.outcomes = pre ++ ScriptOutcome.raisedError m :: rest →
       (∀ o ∈ pre, ∃ b, o = ScriptOutcome.executed b) →
       fixSchemaIssues env =
         ⟨false,
          (schemaFiles.take pre.length).map (fun f => "Executado arquivo de esquema: " ++ f)
            ++ ["Erro ao executar " ++ schemaFiles.getD pre.length "" ++ ": " ++ m],
          schemaFiles.take pre.length⟩) ∧
    (∀ (env : FixEnv),
       env.initialValid = false →
       env.outcomes.length = 3 →
       (∀ o ∈ env.outcomes, ∃ b, o = ScriptOutcome.executed b) →
       (fixSchemaIssues env).executed = schemaFiles ∧
       (fixSchemaIssues env).success = env.finalValid) := by
  constructor
  · intro env pre rest m hinit hlen hout hpre
    rcases pre with _ | ⟨o1, _ | ⟨o2, _ | ⟨o3, t⟩⟩⟩
    · simp [fixSchemaIssues, hinit, hout, schemaFiles, fixLoop]
    · obtain ⟨b1, rfl⟩ := hpre o1 (by simp)
      simp [fixSchemaIssues, hinit, hout, schemaFiles, fixLoop]
    · obtain ⟨b1, rfl⟩ := hpre o1 (by simp)
      obtain ⟨b2, rfl⟩ := hpre o2 (by simp)
      simp [fixSchemaIssues, hinit, hout, schemaFiles, fixLoop]
    · rw [hout] at hlen
      simp at hlen
  · intro env hinit hlen hall
    obtain ⟨o1, o2, o3, hout⟩ := List.length_eq_three.mp hlen
    obtain ⟨b1, rfl⟩ := hall o1 (by simp [hout])
    obtain ⟨b2, rfl⟩ := hall o2 (by simp [hout])
    obtain ⟨b3, rfl⟩ := hall o3 (by simp [hout])
    cases hfv : env.finalValid <;>
      simp [fixSchemaIssues, hinit, hout, hfv, schemaFiles, fixLoop]

/-- C4 (amended) at a concrete input: reading the second script raises
after the first applied cleanly. -/
theorem fix_schema_abort_spec_witness :
    fixSchemaIssues envLeituraFalha =
      ⟨false,
       (schemaFiles.take 1).map (fun f => "Executado arquivo de esquema: " ++ f)
         ++ ["Erro ao executar " ++ schemaFiles.getD 1 "" ++ ": " ++
             "arquivo não encontrado"],
       schemaFiles.take 1⟩ :=
  fix_schema_abort_spec.1 envLeituraFalha [ScriptOutcome.executed true]
    [ScriptOutcome.executed true] "arquivo não encontrado" rfl (by decide) rfl
    (fun o ho => ⟨true, by simpa using ho⟩)

/-- Inserting below every element of a descending-sorted list appends. -/
theorem insertByMtimeDesc_append (x : FileEnt) (l : List FileEnt)
    (h : ∀ y ∈ l, x.mtime < y.mtime) : insertByMtimeDesc x l = l ++ [x] := by
  induction l with
  | nil => rfl
  | cons g gs ih =>
      have hg : ¬x.mtime > g.mtime := not_lt.mpr (le_of_lt (h g (by simp)))
      simp only [insertByMtimeDesc, if_neg hg, List.cons_append]
      rw [ih fun y hy => h y (List.mem_cons_of_mem g hy)]

/-- The descending mtime sort of a strictly ascending listing is its
reverse. -/
theorem sortByMtimeDesc_of_ascending (l : List FileEnt)
    (h : l.Pairwise fun a b => a.mtime < b.mtime) :
    sortByMtimeDesc l = l.reverse := by
  induction l with
  | nil => rfl
  | cons x xs ih =>
      obtain ⟨hx, hxs⟩ := List.pairwise_cons.mp h
      simp only [sortByMtimeDesc, ih hxs, List.reverse_cons]
      exact insertByMtimeDesc_append x xs.reverse fun y hy =>
        hx y (List.mem_reverse.mp hy)

/-- C5: counterexample — starting from the 12 backups of `dozeBackups`
(none age-expired) one `create_backup` call leaves exactly 10 files, but
the pruning runs after the new copy exists (13 files, keep the 10 most
recent), so the THREE oldest existing backups are removed, not two: the
third-oldest "backup_03.db", which the claim implies survives, is gone. -/
theorem create_backup_prune_cex :
    (createBackup {} true "backup_13.db" 50 100 dozeBackups).2.map FileEnt.name =
      ["backup_04.db", "backup_05.db", "backup_06.db", "backup_07.db", "backup_08.db",
       "backup_09.db", "backup_10.db", "backup_11.db", "backup_12.db", "backup_13.db"] ∧
    (createBackup {} true "backup_13.db" 50 100 dozeBackups).2.length = 10 ∧
    ¬"backup_03.db" ∈
      (createBackup {} true "backup_13.db" 50 100 dozeBackups).2.map FileEnt.name := by
  decide

/-- C5 (amended): starting from 12 backup files (listed oldest first, with
distinct names, none past the 30-day age threshold) under the stock
configuration (retention count 10), one `create_backup` call leaves exactly
10 backup files: the fresh copy plus the 9 most recent old ones — the
three oldest existing backups are removed. -/
theorem create_backup_retention_ten (dir : List FileEnt) (stamp : String) (newM now : Int)
    (h12 : dir.length = 12)
    (hback : ∀ f ∈ dir, isBackupFile f.name = true)
    (hstampb : isBackupFile stamp = true)
    (hsorted : dir.Pairwise fun a b => a.mtime < b.mtime)
    (hnew : ∀ f ∈ dir, f.mtime < newM)
    (hage : ∀ f ∈ dir, now - 30 * 86400 ≤ f.mtime)
    (hageNew : now - 30 * 86400 ≤ newM)
    (hnames : ((dir ++ [(⟨stamp, newM⟩ : FileEnt)]).map FileEnt.name).Nodup) :
    createBackup {} true stamp newM now dir =
      (some stamp, dir.drop 3 ++ [(⟨stamp, newM⟩ : FileEnt)]) ∧
    (dir.drop 3 ++ [(⟨stamp, newM⟩ : FileEnt)]).length = 10 := by
  have hall : ∀ f ∈ dir ++ [(⟨stamp, newM⟩ : FileEnt)], isBackupFile f.name = true := by
    intro f hf
    rcases List.mem_append.mp hf with h | h
    · exact hback f h
    · simp at h
      subst h
      exact hstampb
  have hfilter_self : (dir ++ [(⟨stamp, newM⟩ : FileEnt)]).filter
      (fun f => isBackupFile f.name) = dir ++ [(⟨stamp, newM⟩ : FileEnt)] :=
    List.filter_eq_self.mpr hall
  have hage1 : (dir ++ [(⟨stamp, newM⟩ : FileEnt)]).filter
      (fun f => f.mtime < now - 30 * 86400) = [] := by
    rw [List.filter_eq_nil_iff]
    intro f hf
    rcases List.mem_append.mp hf with h | h
    · simpa using not_lt.mpr (hage f h)
    · simp at h
      subst h
      simpa using not_lt.mpr hageNew
  have hpair1 : (dir ++ [(⟨stamp, newM⟩ : FileEnt)]).Pairwise
      fun a b => a.mtime < b.mtime := by
    rw [List.pairwise_append]
    refine ⟨hsorted, by simp, ?_⟩
    intro a ha b hb
    simp at hb
    subst hb
    exact hnew a ha
  have hsortEq : sortByMtimeDesc (dir ++ [(⟨stamp, newM⟩ : FileEnt)]) =
      (⟨stamp, newM⟩ : FileEnt) :: dir.reverse := by
    rw [sortByMtimeDesc_of_ascending _ hpair1]
    simp
  have hdropEq : ((⟨stamp, newM⟩ : FileEnt) :: dir.reverse).drop 10 =
      (dir.take 3).reverse := by
    have h9 : ((⟨stamp, newM⟩ : FileEnt) :: dir.reverse).drop 10 = dir.reverse.drop 9 := by
      simp [List.drop]
    rw [h9, List.drop_reverse, h12]
  have hnodupdir : (dir.map FileEnt.name).Nodup := by
    have h := hnames
    rw [List.map_append, List.nodup_append] at h
    exact h.1
  have hstampnot : stamp ∉ dir.map FileEnt.name := by
    have h := hnames
    rw [List.map_append, List.nodup_append] at h
    intro hmem
    exact h.2.2 hmem (by simp)
  have hdisj2 : ∀ a, a ∈ (dir.take 3).map FileEnt.name →
      a ∈ (dir.drop 3).map FileEnt.name → False := by
    have h := hnodupdir
    rw [← List.take_append_drop 3 dir, List.map_append, List.nodup_append] at h
    exact fun a ha hb => h.2.2 ha hb
  have key : cleanWithThresholds (dir ++ [(⟨stamp, newM⟩ : FileEnt)]) now 30 10 =
      dir.drop 3 ++ [(⟨stamp, newM⟩ : FileEnt)] := by
    simp only [cleanWithThresholds]
    rw [hfilter_self]
    rw [if_pos (by norm_num : (30:Int) > 0), if_pos (by norm_num : (10:Int) > 0)]
    rw [hage1, hsortEq]
    rw [show ((10:Int).toNat) = 10 from rfl, hdropEq]
    have h1 : (dir.take 3).filter
        (fun f => ¬f.name ∈ ([] ++ (dir.take 3).reverse).map FileEnt.name) = [] := by
      rw [List.filter_eq_nil_iff]
      intro f hf
      simp only [List.nil_append, List.map_reverse, List.mem_reverse, decide_not,
                 Bool.not_eq_true', decide_eq_false_iff_not, not_not]
      exact List.mem_map_of_mem FileEnt.name hf
    have h2 : ((dir.drop 3) ++ [(⟨stamp, newM⟩ : FileEnt)]).filter
        (fun f => ¬f.name ∈ ([] ++ (dir.take 3).reverse).map FileEnt.name) =
        (dir.drop 3) ++ [(⟨stamp, newM⟩ : FileEnt)] := by
      rw [List.filter_eq_self]
      intro f hf
      simp only [List.nil_append, List.map_reverse, List.mem_reverse, decide_not,
                 Bool.not_eq_true', decide_eq_false_iff_not]
      intro hmem
      rcases List.mem_append.mp hf with h | h
      · exact hdisj2 f.name hmem (List.mem_map_of_mem FileEnt.name h)
      · simp at h
        subst h
        rcases List.mem_map.mp hmem with ⟨g, hg, hgname⟩
        have hgm := List.mem_map_of_mem FileEnt.name (List.mem_of_mem_take hg)
        rw [hgname] at hgm
        exact hstampnot (by simpa using hgm)
    conv_lhs =>
      rw [show dir ++ [(⟨stamp, newM⟩ : FileEnt)] =
        (dir.take 3 ++ dir.drop 3) ++ [(⟨stamp, newM⟩ : FileEnt)] from by
          rw [List.take_append_drop]]
    rw [List.append_assoc, List.filter_append, h1, h2]
    simp
  refine ⟨?_, ?_⟩
  · simp only [createBackup]
    rw [if_neg (by simp)]
    simp only [cleanOldBackups, resolveThreshold, Option.getD]
    rw [key]
  · simp [h12]

/-- C5 (amended) at a concrete input: the 12 files of `dozeBackups`. -/
theorem create_backup_retention_ten_witness :
    createBackup {} true "backup_13.db" 50 100 dozeBackups =
      (some "backup_13.db", dozeBackups.drop 3 ++ [(⟨"backup_13.db", 50⟩ : FileEnt)]) ∧
    (dozeBackups.drop 3 ++ [(⟨"backup_13.db", 50⟩ : FileEnt)]).length = 10 :=
  create_backup_retention_ten dozeBackups "backup_13.db" 50 100 (by decide) (by decide)
    (by decide) (by decide) (by decide) (by decide) (by decide) (by decide)

/-- The UPDATE of `Usuario.save` leaves a table without the target id
unchanged. -/
theorem map_updateRow_of_no_id (u : Usuario) (uid : Nat) (l : List UsuarioRow)
    (h : ∀ r ∈ l, r.id ≠ uid) : l.map (u.updateRow uid) = l := by
  induction l with
  | nil => rfl
  | cons r t ih =>
      simp only [List.map_cons, Usuario.updateRow, if_neg (h r (by simp))]
      rw [ih fun s hs => h s (List.mem_cons_of_mem r hs)]

/-- Every email after the UPDATE is an old email or the new one. -/
theorem mem_map_email_updateRow (u : Usuario) (uid : Nat) (l : List UsuarioRow) (x : String)
    (hx : x ∈ (l.map (u.updateRow uid)).map UsuarioRow.email) :
    x ∈ l.map UsuarioRow.email ∨ x = u.email := by
  rcases List.mem_map.mp hx with ⟨r', hr', rfl⟩
  rcases List.mem_map.mp hr' with ⟨r, hr, rfl⟩
  by_cases h : r.id = uid
  · right
    simp [Usuario.updateRow, h]
  · left
    simp only [Usuario.updateRow, if_neg h]
    exact List.mem_map_of_mem UsuarioRow.email hr

/-- The UPDATE with a fresh email keeps the emails pairwise distinct
(unique row ids ensure at most one row changes). -/
theorem nodup_email_update_fresh (u : Usuario) (uid : Nat) (l : List UsuarioRow)
    (hem : (l.map UsuarioRow.email).Nodup) (hid : (l.map UsuarioRow.id).Nodup)
    (hfresh : ¬u.email ∈ l.map UsuarioRow.email) :
    ((l.map (u.updateRow uid)).map UsuarioRow.email).Nodup := by
  induction l with
  | nil => simp
  | cons r t ih =>
      simp only [List.map_cons, List.nodup_cons] at hem hid
      have hfresh1 : u.email ≠ r.email := fun h => hfresh (by simp [h])
      have hfresh2 : ¬u.email ∈ t.map UsuarioRow.email := fun h => hfresh (by simp [h])
      by_cases h : r.id = uid
      · have ht : t.map (u.updateRow uid) = t := by
          refine map_updateRow_of_no_id u uid t fun s hs hsu => hid.1 ?_
          rw [h, ← hsu]
          exact List.mem_map_of_mem UsuarioRow.id hs
        simp only [List.map_cons, Usuario.updateRow, if_pos h, ht, List.nodup_cons]
        exact ⟨hfresh2, hem.2⟩
      · simp only [List.map_cons, Usuario.updateRow, if_neg h, List.nodup_cons]
        refine ⟨fun hmem => ?_, ih hem.2 hid.2 hfresh2⟩
        rcases mem_map_email_updateRow u uid t r.email hmem with hmem2 | hmem2
        · exact hem.1 hmem2
        · exact hfresh1 hmem2.symm

/-- When every row carrying the target id already holds the new email,
the UPDATE does not change the email column at all. -/
theorem map_email_update_same (u : Usuario) (uid : Nat) (l : List UsuarioRow)
    (h : ∀ r ∈ l, r.id = uid → r.email = u.email) :
    (l.map (u.updateRow uid)).map UsuarioRow.email = l.map UsuarioRow.email := by
  induction l with
  | nil => rfl
  | cons r t ih =>
      have ht := ih fun s hs => h s (List.mem_cons_of_mem r hs)
      by_cases hr : r.id = uid
      · simp only [List.map_cons, Usuario.updateRow, if_pos hr, ht]
        rw [h r (by simp) hr]
      · simp only [List.map_cons, Usuario.updateRow, if_neg hr, ht]

/-- C7: email uniqueness is preserved by every `Usuario.save` call: when
no two user rows share an email (and row ids are unique, as the primary
key guarantees), the rows after `save` — whether it rejects, INSERTs or
UPDATEs — still have pairwise distinct emails; and `save` returns False
without touching the database when another user already holds the given
email (any existing row on INSERT, a row with a different id on UPDATE). -/
theorem usuario_save_email_unique (u : Usuario) (db : DB)
    (hemails : (db.usuarios.map UsuarioRow.email).Nodup)
    (hids : (db.usuarios.map UsuarioRow.id).Nodup) :
    ((Usuario.save u db).2.2.usuarios.map UsuarioRow.email).Nodup ∧
    (u.id = none → (∃ r ∈ db.usuarios, r.email = u.email) →
      Usuario.save u db = (false, u, db)) ∧
    (∀ uid, u.id = some uid → (∃ r ∈ db.usuarios, r.email = u.email ∧ r.id ≠ uid) →
      Usuario.save u db = (false, u, db)) := by
  by_cases hval : u.validate ≠ []
  · have hsave : Usuario.save u db = (false, u, db) := by
      simp [Usuario.save, hval]
    exact ⟨by rw [hsave]; exact hemails, fun _ _ => hsave, fun _ _ _ => hsave⟩
  · have hv : u.validate = [] := not_not.mp hval
    cases hid : u.id with
    | none =>
        cases hfind : Usuario.getByEmail db u.email with
        | some ex =>
            have hsave : Usuario.save u db = (false, u, db) := by
              simp [Usuario.save, hv, hid, hfind]
            exact ⟨by rw [hsave]; exact hemails, fun _ _ => hsave,
                   fun uid huid => absurd huid (by simp)⟩
        | none =>
            have hnoem : ∀ r ∈ db.usuarios, ¬r.email = u.email := by
              simpa [Usuario.getByEmail] using hfind
            have hsave : Usuario.save u db =
                (true, { u with id := some db.nextUsuarioId },
                 { db with
                     usuarios := db.usuarios ++
                       [⟨db.nextUsuarioId, u.nome, u.email, u.senha_hash,
                         u.nivel_permissao, if u.ativo then 1 else 0, none⟩],
                     nextUsuarioId := db.nextUsuarioId + 1 }) := by
              simp [Usuario.save, hv, hid, hfind]
            refine ⟨?_, fun _ hex => ?_, fun uid huid => absurd huid (by simp)⟩
            · rw [hsave]
              simp only [List.map_append, List.map_cons, List.map_nil]
              rw [List.nodup_append]
              refine ⟨hemails, by simp, ?_⟩
              intro a ha hb
              simp at hb
              subst hb
              rcases List.mem_map.mp ha with ⟨r, hr, hre⟩
              exact hnoem r hr hre
            · rcases hex with ⟨r, hr, hre⟩
              exact absurd hre (hnoem r hr)
    | some uid =>
        cases hfind : Usuario.getByEmail db u.email with
        | none =>
            have hnoem : ∀ r ∈ db.usuarios, ¬r.email = u.email := by
              simpa [Usuario.getByEmail] using hfind
            have hsave : Usuario.save u db =
                (true, u, { db with usuarios := db.usuarios.map (u.updateRow uid) }) := by
              simp [Usuario.save, hv, hid, hfind]
            refine ⟨?_, fun hnone _ => absurd hnone (by simp), fun uid2 _ hex => ?_⟩
            · rw [hsave]
              exact nodup_email_update_fresh u uid db.usuarios hemails hids
                fun hmem => by
                  rcases List.mem_map.mp hmem with ⟨r, hr, hre⟩
                  exact hnoem r hr hre
            · rcases hex with ⟨r, hr, hre, _⟩
              exact absurd hre (hnoem r hr)
        | some ex =>
            have hexmem : ex ∈ db.usuarios :=
              List.mem_of_find?_eq_some hfind
            have hexe : ex.email = u.email := by
              have h := List.find?_some (hfind : db.usuarios.find?
                (fun r => r.email = u.email) = some ex)
              simpa using h
            by_cases hexid : ex.id = uid
            · have hok : ¬ex.id ≠ uid := not_not.mpr hexid
              have hsave : Usuario.save u db =
                  (true, u, { db with usuarios := db.usuarios.map (u.updateRow uid) }) := by
                simp [Usuario.save, hv, hid, hfind, hok]
              refine ⟨?_, fun hnone _ => absurd hnone (by simp), fun uid2 huid2 hex2 => ?_⟩
              · rw [hsave]
                rw [map_email_update_same u uid db.usuarios fun r hr hru => ?_]
                · exact hemails
                · have hrex : r = ex :=
                    List.inj_on_of_nodup_map hids hr hexmem (by rw [hru, hexid])
                  rw [hrex, hexe]
              · obtain rfl : uid = uid2 := Option.some.inj huid2
                rcases hex2 with ⟨r, hr, hre, hrid⟩
                have hrex : r = ex :=
                  List.inj_on_of_nodup_map hemails hr hexmem (by rw [hre, hexe])
                rw [hrex] at hrid
                exact absurd hexid hrid
            · have hsave : Usuario.save u db = (false, u, db) := by
                simp [Usuario.save, hv, hid, hfind, hexid]
              exact ⟨by rw [hsave]; exact hemails,
                     fun hnone _ => absurd hnone (by simp),
                     fun uid2 huid2 _ => hsave⟩

/-- C7 at a concrete input: updating user 1 of a two-user table to a fresh
email. -/
theorem usuario_save_email_unique_witness :
    ((dbDoisUsuarios.usuarios.map UsuarioRow.email).Nodup ∧
     (dbDoisUsuarios.usuarios.map UsuarioRow.id).Nodup) ∧
    (((Usuario.save uAtualiza dbDoisUsuarios).2.2.usuarios.map UsuarioRow.email).Nodup ∧
     (uAtualiza.id = none → (∃ r ∈ dbDoisUsuarios.usuarios, r.email = uAtualiza.email) →
       Usuario.save uAtualiza dbDoisUsuarios = (false, uAtualiza, dbDoisUsuarios)) ∧
     (∀ uid, uAtualiza.id = some uid →
       (∃ r ∈ dbDoisUsuarios.usuarios, r.email = uAtualiza.email ∧ r.id ≠ uid) →
       Usuario.save uAtualiza dbDoisUsuarios = (false, uAtualiza, dbDoisUsuarios))) :=
  ⟨⟨by decide, by decide⟩,
   usuario_save_email_unique uAtualiza dbDoisUsuarios (by decide) (by decide)⟩

end SistemaTerritorios
